import Mathlib

/-!
Shallow embedding of the Weave-Manager backend (src/src-tauri/src/main.rs)
and proofs about its discovery, relaunch, multiplexing, kill, analytics and
mod-metadata operations.

OS-level effects (process table contents, filesystem reads, zip archives,
JSON parsing by serde, signal delivery) are modelled as explicit inputs to
the embedded functions; everything the Rust code computes from those inputs
is translated directly.
-/

namespace WeaveManager

/-- Boolean test that `pat` is a leading segment of `s`
(character-by-character comparison, as Rust `str::starts_with`). -/
def listLeads : List Char → List Char → Bool
  | [], _ => true
  | _ :: _, [] => false
  | a :: as, b :: bs => a == b && listLeads as bs

/-- Boolean substring containment on character lists: `pat` occurs
contiguously somewhere in the list (Rust `str::contains`). -/
def listHasSub (pat : List Char) : List Char → Bool
  | [] => pat.isEmpty
  | s@(_ :: t) => listLeads pat s || listHasSub pat t

/-- Rust `s.contains(pat)`: substring containment on strings. -/
def strContains (s pat : String) : Bool :=
  listHasSub pat.data s.data

/-- `ClientType` from main.rs lines 23-28. -/
inductive ClientType where
  | LunarClient
  | Forge
  | Vanilla
deriving DecidableEq, Repr

/-- `MinecraftInstance` from main.rs lines 30-39 (u32/u64 become Nat). -/
structure MinecraftInstance where
  pid : Nat
  cmd : List String
  cwd : String
  version : String
  start_time : Nat
  client_type : ClientType
  weave_attached : Bool
deriving DecidableEq, Repr

/-- One process of the OS process-table snapshot, carrying exactly the
attributes `fetch_minecraft_instances` reads from `sysinfo`:
`exeFileName` is the outcome of `proc.exe().file_name().and_then(OsStr::to_str)`,
`cmd` is `proc.cmd()`, `cwd` is `proc.cwd().to_string_lossy()`,
`start_time` is `proc.start_time()`. -/
structure ProcInfo where
  pid : Nat
  exeFileName : Option String
  cmd : List String
  cwd : String
  start_time : Nat
deriving DecidableEq, Repr

/-- Version extraction from main.rs line 140:
`proc.cmd().iter().skip_while(|&arg| arg != "--version").nth(1)?`.
`skip_while` leaves the first `"--version"` token (if any) at position 0,
so `nth(1)` is the token immediately after it. -/
def extractVersion (cmd : List String) : Option String :=
  ((cmd.dropWhile fun arg => arg != "--version").drop 1).head?

/-- Variant classification from main.rs lines 122-128. -/
def classifyClientType (cmd : List String) : ClientType :=
  if cmd.any (fun arg => strContains arg "lunar") then ClientType.LunarClient
  else if cmd.any (fun arg => strContains arg "minecraftforge") then ClientType.Forge
  else ClientType.Vanilla

/-- Injector-attachment detection from main.rs lines 130-134. -/
def weaveAttachedOf (cmd : List String) : Bool :=
  cmd.any fun arg => strContains arg "Weave-Loader"

/-- The per-process body of the `filter_map` closure in
`fetch_minecraft_instances` (main.rs lines 113-145). -/
def classifyInstance (p : ProcInfo) : Option MinecraftInstance :=
  if ¬ (p.exeFileName = some "javaw.exe" ∨ p.exeFileName = some "java") then none
  else if ¬ (p.cmd.any fun arg => strContains arg ".minecraft") = true then none
  else
    let client_type := classifyClientType p.cmd
    let weave_attached := weaveAttachedOf p.cmd
    match extractVersion p.cmd with
    | none => none
    | some v =>
      some { pid := p.pid, cmd := p.cmd, cwd := p.cwd, version := v,
             start_time := p.start_time, client_type := client_type,
             weave_attached := weave_attached }

/-- `fetch_minecraft_instances` (main.rs lines 107-147), with the refreshed
process-table snapshot made an explicit argument. -/
def fetch_minecraft_instances (procs : List ProcInfo) : List MinecraftInstance :=
  procs.filterMap classifyInstance

/-- `ConsolePayload` from main.rs lines 55-59. -/
structure ConsolePayload where
  line : String
  pid : Nat
deriving DecidableEq, Repr

/-- One iteration of the stdout-draining loop in `relaunch_with_weave`
(main.rs lines 178-189): the chunk appended to the log file
(`format!("\x7b\x7d\n", line)`) and the live-channel emission, produced only
when the child pid equals the value read from the selection mutex. -/
def muxStep (childPid : Nat) (selected : Nat) (line : String) :
    String × Option ConsolePayload :=
  (line ++ "\n",
   if childPid = selected then some ⟨line, childPid⟩ else none)

/-- The whole loop over the successfully read lines (the `if let Ok(line)`
arm); each item pairs the line text with the selection-register value the
loop observes at that iteration (the mutex is re-locked per line).
Returns the sequence of chunks written to the log file and the sequence of
live-channel emissions. -/
def muxRun (childPid : Nat) (items : List (String × Nat)) :
    List String × List ConsolePayload :=
  match items with
  | [] => ([], [])
  | (line, sel) :: rest =>
    let step := muxStep childPid sel line
    let tail := muxRun childPid rest
    (step.1 :: tail.1,
     match step.2 with
     | some payload => payload :: tail.2
     | none => tail.2)

/-- Observable effect of one `relaunch_with_weave` call. `launch` records
the spawned executable, the working directory and the full injected
command line; `noop` is the branch where the loader path is `None` (no
spawn, no log file, no multiplexer thread); `aborted` models the
out-of-bounds panic of `Vec::insert(1, _)` on an empty `cmd_line`. -/
inductive RelaunchEffect where
  | noop
  | aborted
  | launch (exe : String) (cwd : String) (updatedCmd : List String)
deriving DecidableEq, Repr

/-- `relaunch_with_weave` (main.rs lines 149-194) with the injector-path
resolver's result (`get_weave_loader_path()`, converted to a string as in
line 156) passed in explicitly. `updated_cmd.insert(1, java_agent)` on
`c :: rest` yields `c :: java_agent :: rest`; the spawn then uses
`updated_cmd[0]` as executable (line 159). -/
def relaunch_with_weave (loaderPath : Option String) (cwd : String)
    (cmd_line : List String) : RelaunchEffect :=
  match loaderPath with
  | none => RelaunchEffect.noop
  | some p =>
    match cmd_line with
    | [] => RelaunchEffect.aborted
    | c :: rest =>
      let java_agent := "-javaagent:" ++ p
      RelaunchEffect.launch c cwd (c :: java_agent :: rest)

/-- `kill_pid` (main.rs lines 201-204):
`system.process(Pid::from_u32(pid)).is_some_and(|p| p.kill())`.
The snapshot is the list of pids currently in the process table;
`killSignal pid` models whether the OS accepted the termination signal
(`Process::kill`'s return value). The snapshot is not refreshed and not
mutated, so it is returned unchanged. -/
def kill_pid (killSignal : Nat → Bool) (snapshot : List Nat) (pid : Nat) :
    Bool × List Nat :=
  (snapshot.contains pid && killSignal pid, snapshot)

/-- `Analytics` from main.rs lines 48-53; `launch_times : [u32; 10]` is a
length-10 list of Nat, and the `f32` field is modelled as a rational since
`get_analytics` only ever copies it or zeroes it. -/
structure Analytics where
  launch_times : List Nat
  time_played : Nat
  average_launch_time : Rat
deriving DecidableEq, Repr

/-- The zeroed record built at main.rs lines 232-236. -/
def analyticsDefault : Analytics :=
  { launch_times := List.replicate 10 0,
    time_played := 0,
    average_launch_time := 0 }

/-- `get_analytics` (main.rs lines 218-237): `fileContent` is the result of
`fs::read_to_string` (`none` when the file is missing/unreadable), and
`parse` stands for `serde_json::from_str::<Analytics>`. On a successful
parse the record is rebuilt field by field (lines 224-228); any failure
falls through to the zeroed default. -/
def get_analytics (fileContent : Option String)
    (parse : String → Option Analytics) : Analytics :=
  match fileContent with
  | some content =>
    match parse content with
    | some analytics =>
      { launch_times := analytics.launch_times,
        time_played := analytics.time_played,
        average_launch_time := analytics.average_launch_time }
    | none => analyticsDefault
  | none => analyticsDefault

/-- `ModConfig` from main.rs lines 41-47. -/
structure ModConfig where
  name : Option String
  author : Option String
  version : Option String
  link : Option String
deriving DecidableEq, Repr

/-- What the filesystem/zip layer hands `read_mod_config` for a given path:
the open can fail (`File::open` errs), the bytes can fail to parse as a zip
(`ZipArchive::new` errs), or we get an archive, modelled as an association
list from entry name to raw entry content. -/
inductive OpenResult where
  | noFile
  | notZip
  | archive (entries : List (String × String))
deriving DecidableEq, Repr

/-- Outcome of a `read_mod_config` call: a parsed record, the `None`
return, or a process abort (a reached `unwrap`/`panic!` branch). -/
inductive ModConfigResult where
  | ok (c : ModConfig)
  | noneAbsent
  | aborted
deriving DecidableEq, Repr

/-- `read_mod_config` (main.rs lines 95-105). `File::open(&path).unwrap()`
and `ZipArchive::new(f).unwrap()` abort on failure; `archive.by_name`
returning `FileNotFound` yields `None`; a found entry is fed to
`serde_json::from_reader(conf).unwrap()` (`parse` models serde), which
aborts when the JSON does not parse. (Other `by_name` error kinds, which
also hit the `panic!` arm, are not modelled.) -/
def read_mod_config (parse : String → Option ModConfig) (f : OpenResult) :
    ModConfigResult :=
  match f with
  | OpenResult.noFile => ModConfigResult.aborted
  | OpenResult.notZip => ModConfigResult.aborted
  | OpenResult.archive entries =>
    match entries.lookup "weave.mod.json" with
    | none => ModConfigResult.noneAbsent
    | some raw =>
      match parse raw with
      | some c => ModConfigResult.ok c
      | none => ModConfigResult.aborted

/-! Concrete inputs used by witnesses and counterexamples. -/

/-- Concrete process accepted by the classifier, used in witnesses. -/
def procGood : ProcInfo :=
  { pid := 10, exeFileName := some "java",
    cmd := ["java", "-Djava.library.path=.minecraft/natives", "--version", "1.8.9"],
    cwd := "/home/user", start_time := 100 }

/-- The record the classifier produces for `procGood`. -/
def instGood : MinecraftInstance :=
  { pid := 10,
    cmd := ["java", "-Djava.library.path=.minecraft/natives", "--version", "1.8.9"],
    cwd := "/home/user", version := "1.8.9", start_time := 100,
    client_type := ClientType.Vanilla, weave_attached := false }

/-- Process identical to `procGood` except pid 11 and the upper-cased
executable name `"JAVA"`; everything else about it is acceptable. -/
def procUpper : ProcInfo :=
  { pid := 11, exeFileName := some "JAVA",
    cmd := ["java", "-Djava.library.path=.minecraft/natives", "--version", "1.8.9"],
    cwd := "/home/user", start_time := 100 }

/-- The lower-case twin of `procUpper` (differs only in the letter case of
the executable file name). -/
def procLower : ProcInfo :=
  { procUpper with exeFileName := some "java" }

/-- The record the classifier produces for `procLower`. -/
def instLower : MinecraftInstance :=
  { instGood with pid := 11 }

/-- A concrete analytics record used in the C8 witness. -/
def analyticsW : Analytics :=
  { launch_times := [1, 2, 3, 4, 5, 6, 7, 8, 9, 10],
    time_played := 3600, average_launch_time := 5 }

/-- A concrete stand-in for `serde_json::from_str::<Analytics>` used in the
C8 witness: parses one fixed good document, rejects everything else. -/
def analyticsParseW (s : String) : Option Analytics :=
  if s = "good" then some analyticsW else none

/-! Helper lemmas shared by several claim theorems. -/

/-- A successful version extraction implies the command line contains the
literal `"--version"` token. -/
theorem extractVersion_mem (cmd : List String) (v : String)
    (h : extractVersion cmd = some v) : "--version" ∈ cmd := by
  induction cmd with
  | nil => simp [extractVersion] at h
  | cons a t ih =>
    by_cases ha : a = "--version"
    · exact ha ▸ List.mem_cons_self a t
    · have hne : (a != "--version") = true := by
        simpa [bne_iff_ne] using ha
      have hstep : extractVersion (a :: t) = extractVersion t := by
        simp [extractVersion, List.dropWhile_cons, hne]
      rw [hstep] at h
      exact List.mem_cons_of_mem _ (ih h)

/-- Characterization of a successful classification: the record copies the
process's command line, its version is the extracted one, and the
executable name passed the (case-sensitive) allow-list test. -/
theorem classifyInstance_eq_some (p : ProcInfo) (inst : MinecraftInstance)
    (h : classifyInstance p = some inst) :
    inst.cmd = p.cmd ∧ extractVersion p.cmd = some inst.version ∧
    (p.exeFileName = some "javaw.exe" ∨ p.exeFileName = some "java") := by
  unfold classifyInstance at h
  split at h
  · exact absurd h (by simp)
  · rename_i hexe
    split at h
    · exact absurd h (by simp)
    · split at h
      · exact absurd h (by simp)
      · rename_i v hv
        have := Option.some.inj h
        subst this
        exact ⟨rfl, hv, not_not.mp hexe⟩

/-- Claim C1: every line read from the spawned process's stdout is appended
to the session log with a trailing line terminator, and is emitted on the
live-output channel exactly when the child's pid equals the selection
register's value at that iteration; lines observed under a different
selection are logged but never emitted. -/
theorem mux_log_and_forward (pid : Nat) (items : List (String × Nat)) :
    (muxRun pid items).1 = items.map (fun it => it.1 ++ "\n") ∧
    (muxRun pid items).2 =
      (items.filter fun it => decide (it.2 = pid)).map
        (fun it => ConsolePayload.mk it.1 pid) ∧
    ((∀ it ∈ items, it.2 ≠ pid) → (muxRun pid items).2 = []) := by
  induction items with
  | nil => exact ⟨rfl, rfl, fun _ => rfl⟩
  | cons hd tl ih =>
    obtain ⟨line, sel⟩ := hd
    by_cases h : pid = sel
    · subst h
      refine ⟨?_, ?_, ?_⟩
      · simpa [muxRun, muxStep] using ih.1
      · simpa [muxRun, muxStep] using ih.2.1
      · intro hall
        exact absurd rfl (hall (line, pid) (List.mem_cons_self _ _)).symm
    · have hne : sel ≠ pid := fun hs => h hs.symm
      refine ⟨?_, ?_, ?_⟩
      · simpa [muxRun, muxStep] using ih.1
      · simpa [muxRun, muxStep, h, hne] using ih.2.1
      · intro hall
        have htl : ∀ it ∈ tl, it.2 ≠ pid :=
          fun it hit => hall it (List.mem_cons_of_mem _ hit)
        simpa [muxRun, muxStep, h] using ih.2.2 htl

/-- Witness for C1 at a concrete run: child pid 5, selection register at 7
then 9 for the two lines — both lines logged, zero emissions. -/
theorem mux_log_and_forward_witness :
    (∀ it ∈ [("first line", 7), ("second line", 9)], it.2 ≠ 5) ∧
    (muxRun 5 [("first line", 7), ("second line", 9)]).2 = [] ∧
    (muxRun 5 [("first line", 7), ("second line", 9)]).1 =
      ["first line\n", "second line\n"] :=
  ⟨by decide,
   (mux_log_and_forward 5 [("first line", 7), ("second line", 9)]).2.2 (by decide),
   by decide⟩

/-- Claim C2: discovery extracts the version as the token immediately after
the first `"--version"` token; a process with no such token (or with it
last) yields no record, and every returned record carries that extracted
version and a command line containing `"--version"`. -/
theorem fetch_version_spec (procs : List ProcInfo) :
    (∀ p ∈ procs, extractVersion p.cmd = none → classifyInstance p = none) ∧
    (∀ inst ∈ fetch_minecraft_instances procs,
      "--version" ∈ inst.cmd ∧ extractVersion inst.cmd = some inst.version) := by
  constructor
  · intro p _ h
    unfold classifyInstance
    split
    · rfl
    · split
      · rfl
      · simp [h]
  · intro inst hmem
    rw [fetch_minecraft_instances, List.mem_filterMap] at hmem
    obtain ⟨p, _, hp⟩ := hmem
    obtain ⟨hcmd, hv, _⟩ := classifyInstance_eq_some p inst hp
    rw [hcmd]
    exact ⟨extractVersion_mem p.cmd inst.version hv, hv⟩

/-- Witness for C2: the classifier accepts `procGood` and the produced
record satisfies both version properties. -/
theorem fetch_version_spec_witness :
    instGood ∈ fetch_minecraft_instances [procGood] ∧
    ("--version" ∈ instGood.cmd ∧
      extractVersion instGood.cmd = some instGood.version) :=
  ⟨by decide,
   (fetch_version_spec [procGood]).2 instGood (by decide)⟩

/-- Claim C4: variant classification is a total function evaluated in fixed
priority order: any argument containing `"lunar"` forces `LunarClient`;
otherwise any argument containing `"minecraftforge"` forces `Forge`;
otherwise the result is `Vanilla`. A command line carrying both markers is
classified `LunarClient`. -/
theorem classify_fixed_priority (cmd : List String) :
    ((cmd.any fun arg => strContains arg "lunar") = true →
      classifyClientType cmd = ClientType.LunarClient) ∧
    ((cmd.any fun arg => strContains arg "lunar") = false →
      (cmd.any fun arg => strContains arg "minecraftforge") = true →
      classifyClientType cmd = ClientType.Forge) ∧
    ((cmd.any fun arg => strContains arg "lunar") = false →
      (cmd.any fun arg => strContains arg "minecraftforge") = false →
      classifyClientType cmd = ClientType.Vanilla) :=
  ⟨fun h => by simp [classifyClientType, h],
   fun h1 h2 => by simp [classifyClientType, h1, h2],
   fun h1 h2 => by simp [classifyClientType, h1, h2]⟩

/-- Witness for C4: a command line containing both markers is classified
`LunarClient`. -/
theorem classify_fixed_priority_witness :
    (["-Dpath=lunar", "minecraftforge.jar"].any fun arg =>
      strContains arg "lunar") = true ∧
    classifyClientType ["-Dpath=lunar", "minecraftforge.jar"] =
      ClientType.LunarClient :=
  ⟨by decide,
   (classify_fixed_priority ["-Dpath=lunar", "minecraftforge.jar"]).1 (by decide)⟩

/-- Claim C5: when the injector path resolver yields none-found,
`relaunch_with_weave` is a silent no-op for every working directory and
command line: no spawn, no log file, no multiplexer, no error. -/
theorem relaunch_none_noop (cwd : String) (cmd_line : List String) :
    relaunch_with_weave none cwd cmd_line = RelaunchEffect.noop := rfl

/-- Counterexample to C3 as stated: the allow-list comparison in
`fetch_minecraft_instances` is case-SENSITIVE (`matches!(..., Some("javaw.exe" | "java"))`),
so a process whose executable name differs from an allow-list entry only in
letter case is rejected, while its lower-case twin is accepted. -/
theorem exe_allowlist_case_cex :
    procUpper.exeFileName = some "JAVA" ∧
    "JAVA".data.map Char.toLower = "java".data ∧
    procLower = { procUpper with exeFileName := some "java" } ∧
    classifyInstance procLower = some instLower ∧
    classifyInstance procUpper = none := by
  refine ⟨rfl, by decide, rfl, by decide, by decide⟩

/-- Amended C3: rejection happens exactly when the executable file name is
not a case-sensitive exact match of `"javaw.exe"` or `"java"`; every
accepted process has exactly one of those two names. -/
theorem exe_allowlist_case_sensitive (p : ProcInfo) :
    (¬ (p.exeFileName = some "javaw.exe" ∨ p.exeFileName = some "java") →
      classifyInstance p = none) ∧
    (∀ inst, classifyInstance p = some inst →
      p.exeFileName = some "javaw.exe" ∨ p.exeFileName = some "java") := by
  constructor
  · intro h
    unfold classifyInstance
    rw [if_pos h]
  · intro inst h
    exact (classifyInstance_eq_some p inst h).2.2

/-- Witness for the amended C3: the upper-cased executable fails the
allow-list test and is rejected. -/
theorem exe_allowlist_case_sensitive_witness :
    ¬ (procUpper.exeFileName = some "javaw.exe" ∨
        procUpper.exeFileName = some "java") ∧
    classifyInstance procUpper = none :=
  ⟨by decide, (exe_allowlist_case_sensitive procUpper).1 (by decide)⟩

/-- Claim C6: with a resolved injector path and a non-empty command line,
the spawned executable is element 0 of the original command line and the
injected argument vector is the original vector with the single argument
`"-javaagent:" ++ path` inserted at index 1, preserving the relative order
of all original arguments. -/
theorem relaunch_injects_at_index_one (p cwd : String) (cmd_line : List String)
    (h : cmd_line ≠ []) :
    relaunch_with_weave (some p) cwd cmd_line =
      RelaunchEffect.launch cmd_line.headI cwd
        (cmd_line.headI :: ("-javaagent:" ++ p) :: cmd_line.tail) ∧
    cmd_line.headI :: ("-javaagent:" ++ p) :: cmd_line.tail =
      List.insertIdx 1 ("-javaagent:" ++ p) cmd_line ∧
    (cmd_line.headI :: ("-javaagent:" ++ p) :: cmd_line.tail).length =
      cmd_line.length + 1 := by
  obtain ⟨c, rest, rfl⟩ := List.exists_cons_of_ne_nil h
  exact ⟨rfl, rfl, rfl⟩

/-- Witness for C6 at a concrete relaunch. -/
theorem relaunch_injects_at_index_one_witness :
    (["java", "-jar", "mc.jar"] : List String) ≠ [] ∧
    relaunch_with_weave (some "/home/user/.weave/Weave-Loader.jar") "/game"
        ["java", "-jar", "mc.jar"] =
      RelaunchEffect.launch "java" "/game"
        ["java", "-javaagent:/home/user/.weave/Weave-Loader.jar", "-jar", "mc.jar"] :=
  ⟨by decide,
   ((relaunch_injects_at_index_one "/home/user/.weave/Weave-Loader.jar" "/game"
      ["java", "-jar", "mc.jar"] (by decide)).1)⟩

/-- Counterexample to C7 as stated: an archive whose `weave.mod.json`
entry is present but holds unparsable JSON does NOT give `None` — the
`serde_json::from_reader(conf).unwrap()` at main.rs line 104 aborts the
call, so corrupt metadata does fail the caller. -/
theorem read_mod_config_corrupt_cex :
    List.lookup "weave.mod.json" [("weave.mod.json", "not json")] =
      some "not json" ∧
    read_mod_config (fun _ => none)
        (OpenResult.archive [("weave.mod.json", "not json")]) =
      ModConfigResult.aborted ∧
    ModConfigResult.aborted ≠ ModConfigResult.noneAbsent := by
  exact ⟨by decide, by decide, by decide⟩

/-- Amended C7: an archive with no `weave.mod.json` entry yields `None`;
an archive whose entry is present but unparsable makes the call abort
(panic), not return `None`; a parsable entry yields the parsed record. -/
theorem read_mod_config_amended_spec (parse : String → Option ModConfig)
    (entries : List (String × String)) :
    (List.lookup "weave.mod.json" entries = none →
      read_mod_config parse (OpenResult.archive entries) =
        ModConfigResult.noneAbsent) ∧
    (∀ raw, List.lookup "weave.mod.json" entries = some raw →
      parse raw = none →
      read_mod_config parse (OpenResult.archive entries) =
        ModConfigResult.aborted) ∧
    (∀ raw c, List.lookup "weave.mod.json" entries = some raw →
      parse raw = some c →
      read_mod_config parse (OpenResult.archive entries) =
        ModConfigResult.ok c) :=
  ⟨fun h => by simp [read_mod_config, h],
   fun raw h1 h2 => by simp [read_mod_config, h1, h2],
   fun raw c h1 h2 => by simp [read_mod_config, h1, h2]⟩

/-- Witness for the amended C7: an archive without the entry returns
`None`. -/
theorem read_mod_config_amended_spec_witness :
    List.lookup "weave.mod.json" [("other.txt", "x")] = none ∧
    read_mod_config (fun _ => none) (OpenResult.archive [("other.txt", "x")]) =
      ModConfigResult.noneAbsent :=
  ⟨by decide,
   (read_mod_config_amended_spec (fun _ => none) [("other.txt", "x")]).1 (by decide)⟩

/-- Claim C8: `get_analytics` never fails: a missing file or an unparsable
content yields exactly the zeroed default record, and a successful parse is
returned unchanged. -/
theorem get_analytics_total (parse : String → Option Analytics) :
    get_analytics none parse = analyticsDefault ∧
    analyticsDefault =
      { launch_times := [0, 0, 0, 0, 0, 0, 0, 0, 0, 0],
        time_played := 0, average_launch_time := 0 } ∧
    (∀ s, parse s = none → get_analytics (some s) parse = analyticsDefault) ∧
    (∀ s a, parse s = some a → get_analytics (some s) parse = a) :=
  ⟨rfl, rfl,
   fun s h => by simp [get_analytics, h],
   fun s a h => by simp [get_analytics, h]⟩

/-- Witness for C8 with a concrete parse function: corrupt content falls
back to the zeroed default, good content is returned unchanged. -/
theorem get_analytics_total_witness :
    analyticsParseW "good" = some analyticsW ∧
    analyticsParseW "corrupt" = none ∧
    get_analytics (some "corrupt") analyticsParseW = analyticsDefault ∧
    get_analytics (some "good") analyticsParseW = analyticsW :=
  ⟨by decide, by decide,
   (get_analytics_total analyticsParseW).2.2.1 "corrupt" (by decide),
   (get_analytics_total analyticsParseW).2.2.2 "good" analyticsW (by decide)⟩

/-- Claim C9: `kill_pid` returns true iff a process with the identifier is
in the snapshot and the termination signal was accepted; on an identifier
matching no process it returns false; the snapshot is returned unchanged in
every case. -/
theorem kill_pid_spec (killSignal : Nat → Bool) (snapshot : List Nat)
    (pid : Nat) :
    ((kill_pid killSignal snapshot pid).1 = true ↔
      pid ∈ snapshot ∧ killSignal pid = true) ∧
    (kill_pid killSignal snapshot pid).2 = snapshot ∧
    (pid ∉ snapshot → (kill_pid killSignal snapshot pid).1 = false) := by
  refine ⟨?_, rfl, ?_⟩
  · simp [kill_pid, List.elem_iff]
  · intro h
    simp [kill_pid, List.elem_iff, h]

/-- Witness for C9: killing pid 9 against a snapshot holding pids 4 and 7
returns false and leaves the snapshot unchanged. -/
theorem kill_pid_spec_witness :
    (9 : Nat) ∉ [4, 7] ∧
    (kill_pid (fun _ => true) [4, 7] 9).1 = false ∧
    (kill_pid (fun _ => true) [4, 7] 9).2 = [4, 7] :=
  ⟨by decide,
   (kill_pid_spec (fun _ => true) [4, 7] 9).2.2 (by decide),
   (kill_pid_spec (fun _ => true) [4, 7] 9).2.1⟩

/-- Claim C10: the panic branches of `read_mod_config` are reachable from
caller-supplied input: a path naming no openable file, or naming a file
that is not a valid zip archive, makes the call abort instead of returning
`None`. -/
theorem read_mod_config_aborts_reachable :
    read_mod_config (fun _ => none) OpenResult.noFile =
      ModConfigResult.aborted ∧
    read_mod_config (fun _ => none) OpenResult.notZip =
      ModConfigResult.aborted ∧
    ModConfigResult.aborted ≠ ModConfigResult.noneAbsent :=
  ⟨rfl, rfl, by decide⟩

end WeaveManager
